import Mathlib

/-!
Verification of the `python_for_BAIS` repository against its specification.

The development shallowly embeds the repository's Python source:

* `business_metrics.py` and `financial.py` — pure numeric functions, modelled
  over `ℚ`; a Python exception (an explicit `raise ValueError` or an implicit
  `ZeroDivisionError` from `/`) is modelled as `Option.none`.
* `database_interaction.py` — a thin layer over the external SQLite engine.
  The layer itself is embedded line by line (statement-text construction,
  execute, commit); the external engine's observable behaviour (statement
  parsing, table store, error reporting) is modelled explicitly, with error
  kinds following the specification's taxonomy since the source surfaces the
  engine's exceptions untranslated.
-/

namespace BAIS

/-! ## Numeric model of `business_metrics.py` and `financial.py` -/

/-- Embedding of Python's numeric division `a / b`: raises `ZeroDivisionError`
(modelled as `none`) when the divisor is zero. -/
def pydiv (a b : ℚ) : Option ℚ :=
  if b = 0 then none else some (a / b)

/-- `business_metrics.profit_margin`: raises `ValueError` ("Revenue cannot be
zero.") when `revenue == 0`, otherwise returns `(revenue - cost) / revenue`. -/
def profit_margin (revenue cost : ℚ) : Option ℚ :=
  if revenue = 0 then none
  else pydiv (revenue - cost) revenue

/-- `business_metrics.roi`: raises `ValueError` ("Cost of investment cannot be
zero.") when `cost_of_investment == 0`, otherwise returns
`(gain_from_investment - cost_of_investment) / cost_of_investment`. -/
def roi (gain_from_investment cost_of_investment : ℚ) : Option ℚ :=
  if cost_of_investment = 0 then none
  else pydiv (gain_from_investment - cost_of_investment) cost_of_investment

/-- `business_metrics.clv`: `avg_purchase_value * purchase_frequency *
customer_lifespan`. -/
def clv (avg_purchase_value purchase_frequency customer_lifespan : ℚ) : ℚ :=
  avg_purchase_value * purchase_frequency * customer_lifespan

/-- `financial.calculate_gross_profit`: `revenue - cogs`. -/
def calculate_gross_profit (revenue cogs : ℚ) : ℚ :=
  revenue - cogs

/-- `financial.calculate_net_profit`: `gross_profit - expenses`. -/
def calculate_net_profit (gross_profit expenses : ℚ) : ℚ :=
  gross_profit - expenses

/-- `financial.calculate_roi`: `(profit / investment) * 100`, with no explicit
zero check — a zero `investment` fails through the division itself. -/
def calculate_roi (profit investment : ℚ) : Option ℚ :=
  (pydiv profit investment).map (fun x => x * 100)

/-! ## Statement-text construction of `database_interaction.insert_data`

`insert_data` builds `placeholders = ", ".join("?" * len(data))` and
`sql = f"INSERT INTO {table} VALUES ({placeholders})"`.  Joining the
characters of the string `"?" * n` with `", "` is the same as interleaving
`", "` between `n` copies of `"?"`. -/

/-- The placeholder list `", ".join("?" * n)`: `""`, `"?"`, `"?, ?"`, ... -/
def placeholdersFor (n : Nat) : String :=
  String.intercalate ", " (List.replicate n "?")

/-- The statement text `f"INSERT INTO {table} VALUES ({placeholders})"`
built by `insert_data`: the table name is interpolated directly, the data
values are not — only their count shapes the text. -/
def insert_sql (table : String) (data : List α) : String :=
  "INSERT INTO " ++ table ++ " VALUES (" ++ placeholdersFor data.length ++ ")"

/-- Number of positional placeholders (`?` characters) in a statement text. -/
def countQ (s : String) : Nat :=
  s.data.count '?'

lemma intercalate_go_append (sep : String) (xs : List String) (a b : String) :
    String.intercalate.go (a ++ b) sep xs = a ++ String.intercalate.go b sep xs := by
  induction xs generalizing b with
  | nil => simp [String.intercalate.go]
  | cons x xs ih =>
    simp only [String.intercalate.go]
    rw [String.append_assoc, String.append_assoc, ih, String.append_assoc b sep x]

lemma placeholdersFor_zero : placeholdersFor 0 = "" := rfl

lemma placeholdersFor_one : placeholdersFor 1 = "?" := rfl

lemma placeholdersFor_succ_succ (n : Nat) :
    placeholdersFor (n + 2) = "?, " ++ placeholdersFor (n + 1) := by
  show String.intercalate.go "?" ", " (List.replicate (n + 1) "?")
      = "?, " ++ String.intercalate.go "?" ", " (List.replicate n "?")
  rw [List.replicate_succ]
  show String.intercalate.go ("?" ++ ", " ++ "?") ", " (List.replicate n "?")
      = "?, " ++ String.intercalate.go "?" ", " (List.replicate n "?")
  rw [String.append_assoc]
  exact intercalate_go_append ", " (List.replicate n "?") ("?" ++ ", ") "?"

lemma countQ_append (s t : String) : countQ (s ++ t) = countQ s + countQ t := by
  simp [countQ, String.data_append, List.count_append]

lemma countQ_placeholdersFor (n : Nat) : countQ (placeholdersFor n) = n := by
  induction n with
  | zero => rfl
  | succ m ih =>
    cases m with
    | zero => rfl
    | succ k =>
      rw [placeholdersFor_succ_succ, countQ_append, ih]
      have h : countQ "?, " = 1 := by decide
      omega

lemma countQ_insert_sql (table : String) (data : List α) :
    countQ (insert_sql table data) = countQ table + data.length := by
  simp only [insert_sql, countQ_append, countQ_placeholdersFor]
  show 0 + countQ table + 0 + data.length + 0 = countQ table + data.length
  omega

/-! ## Data model of `database_interaction.py`

The layer owns a connection handle with the spec's
`Unopened → Open → Closed` state machine, and delegates SQL execution to
the external SQLite engine.  The engine's observable behaviour is modelled
as an association list of tables (column count plus inserted rows in
order); error kinds follow the specification's taxonomy, the source itself
surfacing the engine's exceptions untranslated. -/

/-- A scalar value handed to, or read back from, the engine. -/
inductive Value where
  | intV : Int → Value
  | textV : String → Value
  | nullV : Value
deriving DecidableEq

/-- A row: an ordered sequence of scalar values. -/
abbrev Row := List Value

/-- A table as the engine stores it: a column count and the rows inserted so
far, in insertion order. -/
structure Table where
  cols : Nat
  rows : List Row
deriving DecidableEq

/-- The engine's table store, keyed by table name. -/
abbrev DBState := List (String × Table)

/-- The spec's connection state machine: `Unopened → Open → Closed`. -/
inductive ConnState where
  | unopened
  | opened
  | closed
deriving DecidableEq

/-- A connection handle: location, state, the store behind it, and whether
the current transaction holds uncommitted writes. -/
structure Conn where
  dbFile : String
  state : ConnState
  db : DBState
  pending : Bool
deriving DecidableEq

/-- Error taxonomy of the specification (§7). -/
inductive DBError where
  | connectionError
  | schemaError
  | constraintError
  | writeError
  | queryError
deriving DecidableEq

instance {ε α : Type} [DecidableEq ε] [DecidableEq α] : DecidableEq (Except ε α) :=
  fun x y =>
    match x, y with
    | .error e, .error f => decidable_of_iff (e = f) (by simp)
    | .ok a, .ok b => decidable_of_iff (a = b) (by simp)
    | .error _, .ok _ => isFalse (by simp)
    | .ok _, .error _ => isFalse (by simp)

/-! ### The engine's statement parsing (model of the external SQLite engine) -/

/-- Split a character list at its first space: `some (before, after)`, or
`none` when no space occurs. -/
def splitAtSpace : List Char → Option (List Char × List Char)
  | [] => none
  | c :: cs =>
    if c = ' ' then some ([], cs)
    else (splitAtSpace cs).map (fun p => (c :: p.1, p.2))

/-- The characters of the keyword head of a `CREATE TABLE` statement. -/
def createHeadChars : List Char := "CREATE TABLE ".data

/-- The characters of the keyword head of an `INSERT INTO` statement. -/
def insertHeadChars : List Char := "INSERT INTO ".data

/-- The characters of the `VALUES (` keyword of an insert statement. -/
def valuesHeadChars : List Char := "VALUES (".data

/-- The characters of the keyword head of a `SELECT * FROM` statement. -/
def selectHeadChars : List Char := "SELECT * FROM ".data

/-- Reads the `(col defs)` tail of a `CREATE TABLE` statement: the number of
comma-separated column definitions, or `none` on a syntax error. -/
def parseColsAux : List Char → Option Nat
  | '(' :: inner =>
    if inner.getLast? = some ')' ∧ inner.dropLast ≠ [] then
      some (inner.dropLast.count ',' + 1)
    else none
  | _ => none

/-- Reads the `VALUES (...)` tail of an insert statement: the number of
positional placeholders inside the parentheses, or `none` on a syntax
error. -/
def parseBindAux (rest : List Char) : Option Nat :=
  if valuesHeadChars.isPrefixOf rest then
    if (rest.drop valuesHeadChars.length).getLast? = some ')' then
      some ((rest.drop valuesHeadChars.length).dropLast.count '?')
    else none
  else none

/-- Models the engine's reading of a simple one-level
`CREATE TABLE name (col defs)` statement: the table name and the number of
comma-separated column definitions.  `none` models a syntax error. -/
def parseCreate (sql : String) : Option (String × Nat) :=
  if createHeadChars.isPrefixOf sql.data then
    (splitAtSpace (sql.data.drop createHeadChars.length)).bind (fun p =>
      (parseColsAux p.2).map (fun n => (String.mk p.1, n)))
  else none

/-- Models the engine's reading of an `INSERT INTO name VALUES (...)`
statement: the table name and the number of positional placeholders inside
the parentheses.  `none` models a syntax error. -/
def parseInsert (sql : String) : Option (String × Nat) :=
  if insertHeadChars.isPrefixOf sql.data then
    (splitAtSpace (sql.data.drop insertHeadChars.length)).bind (fun p =>
      (parseBindAux p.2).map (fun k => (String.mk p.1, k)))
  else none

/-- Models the engine's reading of a `SELECT * FROM name` statement: the
table name.  `none` models any other (unmodelled) query text. -/
def parseSelectAll (sql : String) : Option String :=
  if selectHeadChars.isPrefixOf sql.data then
    some (String.mk (sql.data.drop selectHeadChars.length))
  else none

/-! ### The engine's execution (model of the external SQLite engine) -/

/-- Append a row to the named table, leaving every other table unchanged. -/
def dbAddRow : DBState → String → Row → DBState
  | [], _, _ => []
  | (name, tbl) :: rest, t, row =>
    if name = t then (name, ⟨tbl.cols, tbl.rows ++ [row]⟩) :: rest
    else (name, tbl) :: dbAddRow rest t row

/-- Models the engine executing a schema statement: the described table
exists afterwards; a malformed statement or a name conflict is a
schema-level failure (spec kind `SchemaError`). -/
def executeSchema (db : DBState) (sql : String) : Except DBError DBState :=
  match parseCreate sql with
  | none => .error .schemaError
  | some (t, n) =>
    match db.lookup t with
    | some _ => .error .schemaError
    | none => .ok ((t, ⟨n, []⟩) :: db)

/-- Models the engine executing an insert statement with positionally bound
parameters: the statement must parse, the binding count must match the
placeholder count, the table must exist, and the row arity must equal the
table's column count (else spec kind `ConstraintError`); any other failure
is spec kind `WriteError`.  On success the row is appended atomically. -/
def executeInsert (db : DBState) (sqlText : String) (params : Row) : Except DBError DBState :=
  match parseInsert sqlText with
  | none => .error .writeError
  | some (t, phCount) =>
    if phCount = params.length then
      match db.lookup t with
      | none => .error .writeError
      | some tbl =>
        if params.length = tbl.cols then .ok (dbAddRow db t params)
        else .error .constraintError
    else .error .writeError

/-- Models the engine executing a read statement and materialising the full
result set; any failure is spec kind `QueryError`. -/
def executeQuery (db : DBState) (sql : String) : Except DBError (List Row) :=
  match parseSelectAll sql with
  | none => .error .queryError
  | some t =>
    match db.lookup t with
    | none => .error .queryError
    | some tbl => .ok tbl.rows

/-! ### The layer's four operations (`database_interaction.py`)

Each operation obtains a cursor from the connection — which the engine
refuses on a connection that is not open (spec kind `ConnectionError`) —
executes one statement, and for writes commits before returning.  Executing
a write marks the transaction pending; `commit` clears it. -/

/-- `create_connection(db_file)`: opens a connection bound to the location,
with an empty store and no pending transaction. -/
def create_connection (db_file : String) : Conn :=
  ⟨db_file, .opened, [], false⟩

/-- Closing a connection (`conn.close()`): terminal transition to `Closed`. -/
def close_connection (conn : Conn) : Conn :=
  { conn with state := .closed }

/-- `create_table(conn, create_table_sql)`: cursor, execute, commit. -/
def create_table (conn : Conn) (create_table_sql : String) : Except DBError Unit × Conn :=
  if conn.state = .opened then
    match executeSchema conn.db create_table_sql with
    | .error e => (.error e, conn)
    | .ok db1 =>
      let executed : Conn := { conn with db := db1, pending := true }
      let committed : Conn := { executed with pending := false }
      (.ok (), committed)
  else (.error .connectionError, conn)

/-- `insert_data(conn, table, data)`: builds the parameterized statement
text `insert_sql table data`, executes it with `data` bound by position,
then commits. -/
def insert_data (conn : Conn) (table : String) (data : Row) : Except DBError Unit × Conn :=
  if conn.state = .opened then
    match executeInsert conn.db (insert_sql table data) data with
    | .error e => (.error e, conn)
    | .ok db1 =>
      let executed : Conn := { conn with db := db1, pending := true }
      let committed : Conn := { executed with pending := false }
      (.ok (), committed)
  else (.error .connectionError, conn)

/-- `query_data(conn, query)`: cursor, execute, fetchall; no commit. -/
def query_data (conn : Conn) (query : String) : Except DBError (List Row) × Conn :=
  if conn.state = .opened then
    match executeQuery conn.db query with
    | .error e => (.error e, conn)
    | .ok rows => (.ok rows, conn)
  else (.error .connectionError, conn)

/-! ## Parsing lemmas -/

lemma mk_data (s : String) : String.mk s.data = s := by
  cases s
  rfl

lemma splitAtSpace_no_space : ∀ {l a b : List Char}, splitAtSpace l = some (a, b) → ' ' ∉ a := by
  intro l
  induction l with
  | nil =>
    intro a b h
    simp [splitAtSpace] at h
  | cons c cs ih =>
    intro a b h
    rw [splitAtSpace] at h
    split at h
    · rename_i hc
      rw [Option.some_inj, Prod.mk.injEq] at h
      rw [← h.1]
      exact List.not_mem_nil ' '
    · rename_i hc
      obtain ⟨p, hp, hval⟩ := Option.map_eq_some'.mp h
      rw [Prod.mk.injEq] at hval
      intro hmem
      rw [← hval.1] at hmem
      rcases List.mem_cons.mp hmem with heq | hmem2
      · exact hc heq.symm
      · exact ih (by rw [← Prod.mk.eta (p := p)] at hp; exact hp) hmem2

lemma splitAtSpace_append {a : List Char} (ha : ' ' ∉ a) (b : List Char) :
    splitAtSpace (a ++ ' ' :: b) = some (a, b) := by
  induction a with
  | nil => simp [splitAtSpace]
  | cons c cs ih =>
    have hc : ¬(c = ' ') := fun h => ha (h ▸ List.mem_cons_self c cs)
    have hcs : ' ' ∉ cs := fun h => ha (List.mem_cons_of_mem c h)
    rw [List.cons_append, splitAtSpace, if_neg hc, ih hcs]
    rfl

lemma isPrefixOf_append (p r : List Char) : p.isPrefixOf (p ++ r) = true := by
  rw [List.isPrefixOf_iff_prefix]
  exact List.prefix_append p r

/-- Character-level decomposition of the constructed insert statement. -/
lemma data_insert_sql (table : String) (data : List α) :
    (insert_sql table data).data
      = insertHeadChars ++ (table.data
          ++ ' ' :: (valuesHeadChars ++ ((placeholdersFor data.length).data ++ [')']))) := by
  have h1 : " VALUES (".data = ' ' :: valuesHeadChars := by decide
  have h2 : ")".data = [')'] := by decide
  simp only [insert_sql, String.data_append, h1, h2, insertHeadChars, List.append_assoc,
    List.cons_append]
  rfl

/-- The engine reads back from the layer-constructed statement exactly the
table name handed to `insert_data` and one placeholder per value, provided
the table name is a space-free identifier. -/
lemma parseInsert_insert_sql (table : String) (data : List α) (h : ' ' ∉ table.data) :
    parseInsert (insert_sql table data) = some (table, data.length) := by
  rw [parseInsert, data_insert_sql, if_pos (isPrefixOf_append _ _)]
  rw [List.drop_left]
  rw [splitAtSpace_append h]
  rw [Option.some_bind]
  rw [parseBindAux]
  rw [if_pos (isPrefixOf_append _ _)]
  rw [List.drop_left]
  rw [List.getLast?_concat, if_pos rfl, List.dropLast_concat]
  rw [Option.map_some']
  have hcount : (placeholdersFor data.length).data.count '?' = data.length :=
    countQ_placeholdersFor data.length
  rw [hcount, mk_data]

/-- The engine reads back from `"SELECT * FROM " ++ t` exactly the table
name `t`. -/
lemma parseSelectAll_concat (t : String) :
    parseSelectAll ("SELECT * FROM " ++ t) = some t := by
  have hd : ("SELECT * FROM " ++ t).data = selectHeadChars ++ t.data := by
    simp [String.data_append, selectHeadChars]
  rw [parseSelectAll, hd, if_pos (isPrefixOf_append _ _), List.drop_left, mk_data]

/-- A table name produced by the engine's `CREATE TABLE` reading contains no
space. -/
lemma parseCreate_no_space {sql t : String} {n : Nat}
    (h : parseCreate sql = some (t, n)) : ' ' ∉ t.data := by
  rw [parseCreate] at h
  split at h
  · obtain ⟨p, hp, hval⟩ := Option.bind_eq_some.mp h
    obtain ⟨k, hk, heq⟩ := Option.map_eq_some'.mp hval
    have ht : t = String.mk p.1 := (Prod.ext_iff.mp heq).1.symm
    rw [ht]
    exact splitAtSpace_no_space (by rw [← Prod.mk.eta (p := p)] at hp; exact hp)
  · exact absurd h (by simp)

/-! ## Claim theorems -/

/-- C1: for every table name and every row of values, `insert_data` builds a
parameterized insert statement with exactly one positional placeholder per
value, the values bound by position and never concatenated into the
statement text (the text depends only on the number of values), while the
table name is interpolated directly into the text. -/
theorem insert_statement_parameterized (table : String) (data : Row)
    (h : countQ table = 0) :
    insert_sql table data
        = "INSERT INTO " ++ table ++ " VALUES (" ++ placeholdersFor data.length ++ ")"
      ∧ countQ (insert_sql table data) = data.length
      ∧ ∀ data2 : Row, data2.length = data.length →
          insert_sql table data2 = insert_sql table data := by
  refine ⟨rfl, ?_, ?_⟩
  · rw [countQ_insert_sql, h]
    exact Nat.zero_add _
  · intro data2 h2
    rw [insert_sql, insert_sql, h2]

/-- Witness for C1 at the concrete table `"t"` and row `(1, "x")`. -/
theorem insert_statement_parameterized_witness :
    countQ "t" = 0
      ∧ (insert_sql "t" [Value.intV 1, Value.textV "x"]
            = "INSERT INTO " ++ "t" ++ " VALUES (" ++ placeholdersFor 2 ++ ")"
          ∧ countQ (insert_sql "t" [Value.intV 1, Value.textV "x"]) = 2
          ∧ ∀ data2 : Row, data2.length = 2 →
              insert_sql "t" data2 = insert_sql "t" [Value.intV 1, Value.textV "x"]) :=
  ⟨by decide, insert_statement_parameterized "t" [Value.intV 1, Value.textV "x"] (by decide)⟩

/-- C4: every metric function that divides by an input — `profit_margin`,
`roi`, and `financial.calculate_roi` — fails when its required divisor is
zero (the spec's `InvalidArgument` zero-divisor failure, `none` here). -/
theorem zero_divisor_fails (cost gain profit : ℚ) :
    profit_margin 0 cost = none ∧ roi gain 0 = none ∧ calculate_roi profit 0 = none := by
  refine ⟨?_, ?_, ?_⟩ <;> simp [profit_margin, roi, calculate_roi, pydiv]

/-- C7: for positive revenue, `profit_margin` returns
`(revenue - cost) / revenue`, and at zero revenue it fails. -/
theorem profit_margin_spec (revenue cost : ℚ) (h : 0 < revenue) :
    profit_margin revenue cost = some ((revenue - cost) / revenue)
      ∧ profit_margin 0 cost = none := by
  have hne : revenue ≠ 0 := ne_of_gt h
  constructor
  · rw [profit_margin, if_neg hne, pydiv, if_neg hne]
  · rw [profit_margin, if_pos rfl]

/-- Witness for C7 at revenue 1000 and cost 400 (the repository's own test
values). -/
theorem profit_margin_spec_witness :
    0 < (1000 : ℚ)
      ∧ (profit_margin 1000 400 = some ((1000 - 400) / 1000)
          ∧ profit_margin 0 400 = none) :=
  ⟨by norm_num, profit_margin_spec 1000 400 (by norm_num)⟩

/-- C9: `clv` multiplies its three inputs; in particular
`clv 100 5 10 = 5000`. -/
theorem clv_spec : (∀ a f l : ℚ, clv a f l = a * f * l) ∧ clv 100 5 10 = 5000 := by
  constructor
  · intro a f l
    rfl
  · norm_num [clv]

/-- C10: for an empty row, `insert_data` builds the statement text
`INSERT INTO <table> VALUES ()` with no placeholders and hands it to the
engine unchanged — on an open connection every failure of the call is a
failure reported by the engine's execution, never a rejection by the layer
itself. -/
theorem insert_empty_row (conn : Conn) (table : String) (hopen : conn.state = .opened) :
    insert_sql table ([] : Row) = "INSERT INTO " ++ table ++ " VALUES ()"
      ∧ ∀ e, (insert_data conn table []).1 = .error e →
          executeInsert conn.db (insert_sql table ([] : Row)) [] = .error e := by
  constructor
  · apply String.ext
    rw [data_insert_sql]
    have hv : " VALUES ()".data
        = ' ' :: (valuesHeadChars ++ ((placeholdersFor (List.length ([] : Row))).data ++ [')'])) := by
      decide
    simp [String.data_append, hv, insertHeadChars, List.append_assoc]
    decide
  · intro e h
    rw [insert_data, if_pos hopen] at h
    cases hex : executeInsert conn.db (insert_sql table ([] : Row)) [] with
    | error e2 =>
      rw [hex] at h
      simpa using h
    | ok db1 =>
      rw [hex] at h
      simp at h

/-- Witness for C10 on a freshly opened connection and table `"t"` (where
the engine reports the failure: no such table). -/
theorem insert_empty_row_witness :
    (create_connection "test.db").state = ConnState.opened
      ∧ (insert_sql "t" ([] : Row) = "INSERT INTO " ++ "t" ++ " VALUES ()"
          ∧ ∀ e, (insert_data (create_connection "test.db") "t" []).1 = .error e →
              executeInsert (create_connection "test.db").db (insert_sql "t" ([] : Row)) []
                = .error e) :=
  ⟨rfl, insert_empty_row (create_connection "test.db") "t" rfl⟩

/-- C2: on a connection that is not open (closed, or never opened), each of
`create_table`, `insert_data` and `query_data` fails with the spec's
`ConnectionError` and leaves the connection unchanged. -/
theorem ops_on_unopen_fail (conn : Conn) (s table q : String) (data : Row)
    (h : conn.state ≠ .opened) :
    create_table conn s = (.error .connectionError, conn)
      ∧ insert_data conn table data = (.error .connectionError, conn)
      ∧ query_data conn q = (.error .connectionError, conn) := by
  refine ⟨?_, ?_, ?_⟩
  · rw [create_table, if_neg h]
  · rw [insert_data, if_neg h]
  · rw [query_data, if_neg h]

/-- Witness for C2 on an explicitly closed connection. -/
theorem ops_on_unopen_fail_witness :
    (close_connection (create_connection "test.db")).state ≠ ConnState.opened
      ∧ (create_table (close_connection (create_connection "test.db"))
            "CREATE TABLE t (a INTEGER)"
          = (.error .connectionError, close_connection (create_connection "test.db"))
        ∧ insert_data (close_connection (create_connection "test.db")) "t" [Value.intV 1]
          = (.error .connectionError, close_connection (create_connection "test.db"))
        ∧ query_data (close_connection (create_connection "test.db")) "SELECT * FROM t"
          = (.error .connectionError, close_connection (create_connection "test.db"))) :=
  ⟨by decide,
   ops_on_unopen_fail (close_connection (create_connection "test.db"))
     "CREATE TABLE t (a INTEGER)" "t" "SELECT * FROM t" [Value.intV 1] (by decide)⟩

/-- C3: on an open connection, inserting a row whose arity differs from the
target table's column count fails with the spec's `ConstraintError`, the
connection is unchanged, and a subsequent query observes the same state as
before the failed call. -/
theorem insert_arity_mismatch_fails (conn : Conn) (table : String) (data : Row) (tbl : Table)
    (hopen : conn.state = .opened) (hid : ' ' ∉ table.data)
    (hlook : conn.db.lookup table = some tbl) (harity : data.length ≠ tbl.cols) :
    insert_data conn table data = (.error .constraintError, conn)
      ∧ ∀ q, query_data (insert_data conn table data).2 q = query_data conn q := by
  have hmain : insert_data conn table data = (.error .constraintError, conn) := by
    rw [insert_data, if_pos hopen, executeInsert, parseInsert_insert_sql table data hid]
    simp [hlook, harity]
  refine ⟨hmain, fun q => by rw [hmain]⟩

/-- Witness for C3: a one-value row against a two-column table. -/
theorem insert_arity_mismatch_fails_witness :
    (⟨"test.db", ConnState.opened, [("t", ⟨2, []⟩)], false⟩ : Conn).db.lookup "t"
        = some ⟨2, []⟩
      ∧ (insert_data ⟨"test.db", ConnState.opened, [("t", ⟨2, []⟩)], false⟩ "t" [Value.intV 1]
          = (.error .constraintError, ⟨"test.db", ConnState.opened, [("t", ⟨2, []⟩)], false⟩)
        ∧ ∀ q, query_data
            (insert_data ⟨"test.db", ConnState.opened, [("t", ⟨2, []⟩)], false⟩
              "t" [Value.intV 1]).2 q
          = query_data ⟨"test.db", ConnState.opened, [("t", ⟨2, []⟩)], false⟩ q) :=
  ⟨by decide,
   insert_arity_mismatch_fails ⟨"test.db", ConnState.opened, [("t", ⟨2, []⟩)], false⟩
     "t" [Value.intV 1] ⟨2, []⟩ rfl (by decide) (by decide) (by decide)⟩

/-- C5: a successful write operation (`create_table` or `insert_data`)
commits before returning — the connection it hands back holds no pending
uncommitted writes. -/
theorem writes_commit (conn : Conn) (s table : String) (data : Row) :
    ((create_table conn s).1 = .ok () → (create_table conn s).2.pending = false)
      ∧ ((insert_data conn table data).1 = .ok () → (insert_data conn table data).2.pending = false) := by
  by_cases hst : conn.state = .opened
  · constructor
    · intro h
      rw [create_table, if_pos hst] at h ⊢
      cases hex : executeSchema conn.db s with
      | error e =>
        rw [hex] at h
        simp at h
      | ok db1 => rfl
    · intro h
      rw [insert_data, if_pos hst] at h ⊢
      cases hex : executeInsert conn.db (insert_sql table data) data with
      | error e =>
        rw [hex] at h
        simp at h
      | ok db1 => rfl
  · constructor
    · intro h
      rw [create_table, if_neg hst] at h
      simp at h
    · intro h
      rw [insert_data, if_neg hst] at h
      simp at h

/-- Witness for C5: a successful `create_table` and a successful
`insert_data` on a concrete open connection, each returning with no pending
writes. -/
theorem writes_commit_witness :
    ((create_table ⟨"test.db", ConnState.opened, [("t", ⟨2, []⟩)], false⟩
          "CREATE TABLE u (a INTEGER)").1 = .ok ()
      ∧ (create_table ⟨"test.db", ConnState.opened, [("t", ⟨2, []⟩)], false⟩
          "CREATE TABLE u (a INTEGER)").2.pending = false)
      ∧ ((insert_data ⟨"test.db", ConnState.opened, [("t", ⟨2, []⟩)], false⟩
            "t" [Value.intV 1, Value.textV "x"]).1 = .ok ()
        ∧ (insert_data ⟨"test.db", ConnState.opened, [("t", ⟨2, []⟩)], false⟩
            "t" [Value.intV 1, Value.textV "x"]).2.pending = false) :=
  ⟨⟨by decide,
    (writes_commit ⟨"test.db", ConnState.opened, [("t", ⟨2, []⟩)], false⟩
      "CREATE TABLE u (a INTEGER)" "t" [Value.intV 1, Value.textV "x"]).1 (by decide)⟩,
   ⟨by decide,
    (writes_commit ⟨"test.db", ConnState.opened, [("t", ⟨2, []⟩)], false⟩
      "CREATE TABLE u (a INTEGER)" "t" [Value.intV 1, Value.textV "x"]).2 (by decide)⟩⟩

/-- C8: a read is idempotent — `query_data` hands back the connection
unchanged, and running the same statement again on that connection returns
the identical result. -/
theorem query_idempotent (conn : Conn) (q : String) :
    (query_data conn q).2 = conn
      ∧ query_data (query_data conn q).2 q = query_data conn q := by
  have hsnd : (query_data conn q).2 = conn := by
    rw [query_data]
    split
    · split <;> rfl
    · rfl
  exact ⟨hsnd, by rw [hsnd]⟩

/-- C6: after creating a table and successfully inserting a row into it,
`SELECT * FROM` that table returns exactly that row, values and order
preserved. -/
theorem create_insert_query_roundtrip (conn : Conn) (sql t : String) (n : Nat) (data : Row)
    (hopen : conn.state = .opened)
    (hparse : parseCreate sql = some (t, n))
    (hfresh : conn.db.lookup t = none)
    (hlen : data.length = n) :
    (create_table conn sql).1 = .ok ()
      ∧ (insert_data (create_table conn sql).2 t data).1 = .ok ()
      ∧ (query_data (insert_data (create_table conn sql).2 t data).2 ("SELECT * FROM " ++ t)).1
          = .ok [data] := by
  have hspace : ' ' ∉ t.data := parseCreate_no_space hparse
  have hct : create_table conn sql
      = (.ok (), { conn with db := (t, ⟨n, []⟩) :: conn.db, pending := false }) := by
    rw [create_table, if_pos hopen, executeSchema, hparse]
    simp [hfresh]
  have hins : insert_data { conn with db := (t, ⟨n, []⟩) :: conn.db, pending := false } t data
      = (.ok (), { conn with db := (t, ⟨n, [data]⟩) :: conn.db, pending := false }) := by
    rw [insert_data, if_pos hopen, executeInsert, parseInsert_insert_sql t data hspace]
    simp [List.lookup, hlen, dbAddRow]
  have hq : query_data { conn with db := (t, ⟨n, [data]⟩) :: conn.db, pending := false }
        ("SELECT * FROM " ++ t)
      = (.ok [data], { conn with db := (t, ⟨n, [data]⟩) :: conn.db, pending := false }) := by
    rw [query_data, if_pos hopen, executeQuery, parseSelectAll_concat]
    simp [List.lookup]
  rw [hct]
  exact ⟨rfl, by rw [hins], by rw [hins, hq]⟩

/-- Witness for C6: the spec's own scenario —
`Open("test.db")`, `CREATE TABLE t (a INTEGER, b TEXT)`, insert `(1, "x")`
into `t`, then `SELECT * FROM t` returns `[(1, "x")]`. -/
theorem create_insert_query_roundtrip_witness :
    parseCreate "CREATE TABLE t (a INTEGER, b TEXT)" = some ("t", 2)
      ∧ ((create_table (create_connection "test.db") "CREATE TABLE t (a INTEGER, b TEXT)").1
            = .ok ()
        ∧ (insert_data
              (create_table (create_connection "test.db") "CREATE TABLE t (a INTEGER, b TEXT)").2
              "t" [Value.intV 1, Value.textV "x"]).1 = .ok ()
        ∧ (query_data
              (insert_data
                (create_table (create_connection "test.db")
                  "CREATE TABLE t (a INTEGER, b TEXT)").2
                "t" [Value.intV 1, Value.textV "x"]).2
              ("SELECT * FROM " ++ "t")).1
            = .ok [[Value.intV 1, Value.textV "x"]]) :=
  ⟨by decide,
   create_insert_query_roundtrip (create_connection "test.db")
     "CREATE TABLE t (a INTEGER, b TEXT)" "t" 2 [Value.intV 1, Value.textV "x"]
     rfl (by decide) rfl rfl⟩

end BAIS
